import Mathlib

/-!
Verification of the ESG-Portal checklist/progress engine.

This file embeds, as executable Lean definitions, the checklist-generation,
profiling-answer, status-recomputation, progress and task-assignment logic of
the repository (src/frontend/src/components/List.js and
src/frontend/src/components/EventTasks.js), and proves or refutes the
specified properties about them.

Conventions of the embedding:
* JS strings are `String`; `null`/`undefined` string fields are `Option String`
  with `none` for the absent case; JS string truthiness is `≠ ""`.
* JS objects used as string-keyed maps are association lists
  `List (key × value)`; object keys are unique, assignment to an existing key
  updates it in place, assignment to a fresh key appends it.
* Task statuses are the literal strings "missing" / "partial" / "complete"
  exactly as in the code.
-/

namespace ESG

/-- A profiling question as transformed in List.js (`fetchProfilingQuestions`,
lines 68-73): `{id, text, activatesElement, category}`. -/
structure ProfilingQuestion where
  id : String
  text : String
  activatesElement : String
  category : String
deriving DecidableEq

/-- A data element of the catalogs in List.js (lines 255-283):
`{id, name, description, unit, cadence, frameworks, category, is_metered,
meter_type?}`. -/
structure DataElement where
  id : String
  name : String
  description : String
  unit : String
  cadence : String
  frameworks : List String
  category : String
  is_metered : Bool
  meter_type : Option String
deriving DecidableEq

/-- List.js line 256. -/
def electricityElement : DataElement :=
  ⟨"electricity", "Electricity Consumption", "Total electricity from local providers",
   "kWh", "Monthly", ["DST", "ESG", "Green Key"], "Environmental", true, some "Electricity"⟩

/-- List.js line 257. -/
def waterElement : DataElement :=
  ⟨"water", "Water Consumption", "Total water usage",
   "m³", "Monthly", ["DST", "ESG", "Green Key"], "Environmental", true, some "Water"⟩

/-- List.js line 258. -/
def wasteLandfillElement : DataElement :=
  ⟨"waste_landfill", "Waste to Landfill", "Non-recycled waste disposal",
   "kg", "Monthly", ["DST", "ESG", "Green Key"], "Environmental", true, some "Waste"⟩

/-- List.js line 259. -/
def sustainabilityPolicyElement : DataElement :=
  ⟨"sustainability_policy", "Sustainability Policy", "Written sustainability policy",
   "Document", "Annually", ["DST", "Green Key", "ESG"], "Social", false, none⟩

/-- List.js line 260. -/
def sustainabilityPersonnelElement : DataElement :=
  ⟨"sustainability_personnel", "Sustainability Personnel", "Certified sustainability staff",
   "Count", "Annually", ["DST", "Green Key"], "Social", false, none⟩

/-- List.js line 261. -/
def employeeTrainingElement : DataElement :=
  ⟨"employee_training", "Employee Training Hours", "Sustainability training per employee",
   "Hours", "Annually", ["DST", "Green Key", "ESG"], "Social", false, none⟩

/-- List.js line 262. -/
def guestEducationElement : DataElement :=
  ⟨"guest_education", "Guest Education", "Guest sustainability initiatives",
   "Count", "Quarterly", ["DST", "Green Key"], "Social", false, none⟩

/-- List.js line 263. -/
def communityInitiativesElement : DataElement :=
  ⟨"community_initiatives", "Community Initiatives", "Local community programs",
   "Count, AED", "Annually", ["DST", "Green Key", "ESG"], "Social", false, none⟩

/-- List.js line 264. -/
def governmentComplianceElement : DataElement :=
  ⟨"government_compliance", "Government Compliance", "Energy regulation compliance",
   "Status", "Annually", ["DST", "ESG"], "Governance", false, none⟩

/-- List.js line 265. -/
def actionPlanElement : DataElement :=
  ⟨"action_plan", "Action Plan", "Annual sustainability objectives",
   "Document", "Annually", ["DST", "Green Key", "ESG"], "Governance", false, none⟩

/-- List.js line 266. -/
def carbonFootprintElement : DataElement :=
  ⟨"carbon_footprint", "Carbon Footprint", "Total GHG emissions",
   "tonnes CO2e", "Annually", ["ESG", "DST"], "Environmental", false, none⟩

/-- List.js line 267. -/
def healthSafetyElement : DataElement :=
  ⟨"health_safety", "Health & Safety Incidents", "Workplace incidents",
   "Count", "Monthly", ["ESG"], "Social", false, none⟩

/-- List.js line 268. -/
def antiCorruptionElement : DataElement :=
  ⟨"anti_corruption", "Anti-corruption Policies", "Anti-corruption measures",
   "Status", "Annually", ["ESG"], "Governance", false, none⟩

/-- List.js line 269. -/
def riskManagementElement : DataElement :=
  ⟨"risk_management", "Risk Management", "ESG risk framework",
   "Status", "Annually", ["ESG"], "Governance", false, none⟩

/-- The must-have (always required) data elements, List.js lines 255-270. -/
def mustHaveElements : List DataElement :=
  [electricityElement, waterElement, wasteLandfillElement, sustainabilityPolicyElement,
   sustainabilityPersonnelElement, employeeTrainingElement, guestEducationElement,
   communityInitiativesElement, governmentComplianceElement, actionPlanElement,
   carbonFootprintElement, healthSafetyElement, antiCorruptionElement, riskManagementElement]

/-- List.js line 274. -/
def generatorFuelElement : DataElement :=
  ⟨"generator_fuel", "Generator Fuel", "Fuel for backup generators",
   "liters", "Monthly", ["DST", "ESG"], "Environmental", true, some "Generator"⟩

/-- List.js line 275. -/
def vehicleFuelElement : DataElement :=
  ⟨"vehicle_fuel", "Vehicle Fuel", "Company vehicle fuel",
   "liters", "Monthly", ["DST", "ESG"], "Environmental", true, some "Vehicle"⟩

/-- List.js line 276. -/
def lpgConsumptionElement : DataElement :=
  ⟨"lpg_consumption", "LPG Usage", "Liquid petroleum gas consumption",
   "kg", "Monthly", ["DST", "ESG"], "Environmental", true, some "LPG"⟩

/-- List.js line 277. -/
def greenEventsElement : DataElement :=
  ⟨"green_events", "Green Events", "Sustainable event services",
   "Count", "Quarterly", ["DST", "Green Key"], "Social", false, none⟩

/-- List.js line 278. -/
def foodSourcingElement : DataElement :=
  ⟨"food_sourcing", "Food Sourcing", "Local/organic food purchases",
   "%", "Quarterly", ["Green Key", "ESG"], "Environmental", false, none⟩

/-- List.js line 279. -/
def greenSpacesElement : DataElement :=
  ⟨"green_spaces", "Green Spaces", "Sustainable landscaping",
   "m²", "Annually", ["Green Key"], "Environmental", false, none⟩

/-- List.js line 280. -/
def renewableEnergyUsageElement : DataElement :=
  ⟨"renewable_energy_usage", "Renewable Energy", "Energy from renewable sources",
   "%", "Quarterly", ["Green Key", "ESG"], "Environmental", true, some "Renewable Energy"⟩

/-- List.js line 281. -/
def environmentalManagementSystemElement : DataElement :=
  ⟨"environmental_management_system", "Environmental Management System", "EMS certification",
   "Status", "Annually", ["Green Key", "ESG"], "Governance", false, none⟩

/-- List.js line 282. -/
def boardCompositionElement : DataElement :=
  ⟨"board_composition", "Board Composition", "Board diversity metrics",
   "%", "Annually", ["ESG"], "Governance", false, none⟩

/-- The conditional data elements, keyed by activation element id: the object
literal of List.js lines 273-283, as an association list. -/
def conditionalElements : List (String × DataElement) :=
  [("generator_fuel", generatorFuelElement),
   ("vehicle_fuel", vehicleFuelElement),
   ("lpg_consumption", lpgConsumptionElement),
   ("green_events", greenEventsElement),
   ("food_sourcing", foodSourcingElement),
   ("green_spaces", greenSpacesElement),
   ("renewable_energy_usage", renewableEnergyUsageElement),
   ("environmental_management_system", environmentalManagementSystemElement),
   ("board_composition", boardCompositionElement)]

/-- JS property read `conditionalElements[key]` (List.js lines 452, 723):
`some` when the key is a property of the object, `none` otherwise
(JS `undefined`, which is falsy). -/
def conditionalLookup (k : String) : Option DataElement :=
  match conditionalElements.find? (fun p => p.1 = k) with
  | some p => some p.2
  | none => none

/-- The hardcoded fallback question list of List.js lines 197-252. -/
def fallbackQuestions : List ProfilingQuestion :=
  [⟨"backup_generators", "Do you have backup generators on-site?",
    "generator_fuel", "Basic Operations"⟩,
   ⟨"company_vehicles", "Do you own or operate company vehicles?",
    "vehicle_fuel", "Basic Operations"⟩,
   ⟨"lpg_usage", "Do you use LPG (liquid petroleum gas) in your operations?",
    "lpg_consumption", "Basic Operations"⟩,
   ⟨"event_facilities", "Do you have meeting rooms or event spaces available for hire?",
    "green_events", "Basic Operations"⟩,
   ⟨"food_service", "Do you have a restaurant, kitchen, or food service?",
    "food_sourcing", "Basic Operations"⟩,
   ⟨"outdoor_spaces", "Do you have outdoor spaces like gardens or lawns?",
    "green_spaces", "Basic Operations"⟩,
   ⟨"renewable_energy", "Do you use solar panels or other renewable energy sources?",
    "renewable_energy_usage", "Sustainability Practices"⟩,
   ⟨"environmental_certification", "Do you have ISO 14001 or similar environmental certification?",
    "environmental_management_system", "Sustainability Practices"⟩,
   ⟨"listed_company", "Is your company listed on any stock exchange?",
    "board_composition", "Sustainability Practices"⟩]

/-- JS property read `answers[questionId]` on the answers object
(state of List.js line 10): value of the first (unique) matching key. -/
def lookupAnswer : List (String × Bool) → String → Option Bool
  | [], _ => none
  | p :: rest, k => if p.1 = k then some p.2 else lookupAnswer rest k

/-- The answers-state update of `handleAnswerChange` (List.js lines 292-296):
`{...answers, [questionId]: answer}` — JS object key assignment, which updates
an existing key in place and appends a fresh key. -/
def handleAnswerChangeState (answers : List (String × Bool)) (questionId : String)
    (answer : Bool) : List (String × Bool) :=
  match answers with
  | [] => [(questionId, answer)]
  | p :: rest =>
    if p.1 = questionId then (p.1, answer) :: rest
    else p :: handleAnswerChangeState rest questionId answer

/-- The answers-state update of `handleAnswerAll` (List.js lines 333-337):
builds a fresh object `allAnswers = {}` and assigns `allAnswers[q.id] = answer`
for each question, replacing the previous answers state wholesale. -/
def handleAnswerAllState (questions : List ProfilingQuestion) (answer : Bool) :
    List (String × Bool) :=
  questions.foldl (fun m q => handleAnswerChangeState m q.id answer) []

/-- Applying the single-answer state update of `handleAnswerChange` to every
question of the list in order, starting from a prior answers state. -/
def applyAnswerToAll (questions : List ProfilingQuestion)
    (prior : List (String × Bool)) (answer : Bool) : List (String × Bool) :=
  questions.foldl (fun m q => handleAnswerChangeState m q.id answer) prior

/-- `allQuestionsAnswered` (List.js lines 370-372):
`profilingQuestions.length > 0 && profilingQuestions.every(q =>
answers.hasOwnProperty(q.id))`. -/
def allQuestionsAnswered (questions : List ProfilingQuestion)
    (answers : List (String × Bool)) : Bool :=
  !questions.isEmpty && questions.all (fun q => (lookupAnswer answers q.id).isSome)

/-- The conditional elements pushed by the loop of `generateChecklist`
(List.js lines 451-455): for each question, if `answers[question.id] === true`
and `conditionalElements[question.activatesElement]` is truthy, the element is
appended; otherwise nothing is appended (an unknown activation reference is
silently skipped). -/
def activatedElements (questions : List ProfilingQuestion)
    (answers : List (String × Bool)) : List DataElement :=
  questions.filterMap (fun q =>
    if lookupAnswer answers q.id = some true then conditionalLookup q.activatesElement
    else none)

/-- Ordering used by the sort of List.js line 458
(`a.category.localeCompare(b.category)`, modelled as lexicographic `String`
order, which agrees with `localeCompare` on the category names involved). -/
def catLe (a b : DataElement) : Prop := a.category ≤ b.category

instance : DecidableRel catLe := fun a b => inferInstanceAs (Decidable (a.category ≤ b.category))

instance : IsTotal DataElement catLe := ⟨fun a b => le_total a.category b.category⟩

instance : IsTrans DataElement catLe := ⟨fun _ _ _ h h' => le_trans h h'⟩

/-- The sort of List.js line 458: JS `Array.prototype.sort` is a stable sort,
whose output (sorted by the comparator with ties in input order) is the output
of insertion sort on the same ordering. -/
def sortByCategory (l : List DataElement) : List DataElement :=
  l.insertionSort catLe

/-- `generateChecklist` (List.js lines 444-459): `none` models the bare
`return;` (JS `undefined`) when not all questions are answered; otherwise the
must-have elements followed by the activated conditional elements, sorted by
category. -/
def generateChecklist (questions : List ProfilingQuestion)
    (answers : List (String × Bool)) : Option (List DataElement) :=
  if allQuestionsAnswered questions answers then
    some (sortByCategory (mustHaveElements ++ activatedElements questions answers))
  else none

/-- A checklist item as returned by the backend checklist endpoint and read in
`saveAnswersAndGenerateChecklist` (List.js lines 418-427). -/
structure BackendChecklistItem where
  id : Nat
  element_name : String
  element_description : String
  element_unit : String
  cadence : String
  frameworks_list : List String
  is_metered : Bool
deriving DecidableEq

/-- A transformed display record produced from a backend checklist item
(List.js lines 418-427). -/
structure DisplayChecklistItem where
  id : Nat
  name : String
  description : String
  unit : String
  frequency : String
  frameworks : List String
  category : String
  isMetered : Bool
deriving DecidableEq

/-- The per-item transformation of List.js lines 418-427; note line 425:
`category: item.is_metered ? 'Environmental' : 'Social'`. -/
def transformChecklistItem (item : BackendChecklistItem) : DisplayChecklistItem :=
  ⟨item.id, item.element_name, item.element_description, item.element_unit,
   item.cadence, item.frameworks_list,
   if item.is_metered then "Environmental" else "Social", item.is_metered⟩

/-- `checklistData.results.map(item => ({...}))` of List.js line 418. -/
def transformChecklist (items : List BackendChecklistItem) : List DisplayChecklistItem :=
  items.map transformChecklistItem

/-! ## EventTasks.js: event-based tasks, status recomputation, assignment filtering -/

/-- An event task entry as held in the `dataEntries` state of EventTasks.js.
`id` is the submission id (`undefined` before any submission exists, hence
`Option`); `value` is the data value string (`""` when absent, JS falsy);
`evidence_file` is the evidence file path or `null`; `status` is one of the
strings "missing" / "partial" / "complete". -/
structure Entry where
  id : Option Nat
  element_id : Nat
  name : String
  category : String
  element_category : String
  event_type : String
  status : String
  value : String
  evidence_file : Option String
  assignedTo : Option String
deriving DecidableEq

/-- The status written by the local update of `handleAutoSave`
(EventTasks.js line 358): `value && entry.evidence_file ? 'complete' :
'partial'`. -/
def autoSaveLocalStatus (value : String) (evidence_file : Option String) : String :=
  if value ≠ "" ∧ evidence_file.isSome then "complete" else "partial"

/-- The status written by `handleClearFile` after removing the evidence file
(EventTasks.js line 417): `e.value ? 'partial' : 'missing'`. -/
def clearFileStatus (value : String) : String :=
  if value ≠ "" then "partial" else "missing"

/-- The status written when a value is cleared (EventTasks.js lines 322 and
453): always `'missing'`. -/
def clearValueStatus : String := "missing"

/-- `saveDataEntry` (EventTasks.js lines 219-271): returns `response.ok`.
`responseOk = none` models a thrown network error (the `catch` returns
`false`); creating a new submission without an element id returns `false`
without issuing a request (lines 241-244). -/
def saveDataEntry (entryId : Option Nat) (elementId : Option Nat)
    (responseOk : Option Bool) : Bool :=
  match entryId, elementId with
  | none, none => false
  | _, _ => responseOk.getD false

/-- The `dataEntries` state transition of `handleAutoSave`
(EventTasks.js lines 308-382), parameterized by the outcome `saveOk` of
`saveDataEntry` and by the server response `refetched` used on the
refetch path (file upload or new submission, lines 342-350). On every failing
save the state is left unchanged. -/
def handleAutoSaveEntries (entries : List Entry) (entryId : Option Nat)
    (elementId : Nat) (value : String) (file : Option String) (saveOk : Bool)
    (refetched : List Entry) : List Entry :=
  if value = "" ∧ file = none then
    if saveOk then
      entries.map (fun e =>
        if e.element_id = elementId then
          { e with status := clearValueStatus, value := "" }
        else e)
    else entries
  else
    if saveOk then
      if file.isSome ∨ entryId = none then refetched
      else
        entries.map (fun e =>
          if e.element_id = elementId then
            { e with status := autoSaveLocalStatus value e.evidence_file,
                     value := if value ≠ "" then value else e.value }
          else e)
    else entries

/-- The `dataEntries` state transition of `handleClearFile`
(EventTasks.js lines 385-429), parameterized by `response.ok`. -/
def handleClearFileEntries (entries : List Entry) (elementId : Nat)
    (responseOk : Bool) : List Entry :=
  if responseOk then
    entries.map (fun e =>
      if e.element_id = elementId then
        { e with status := clearFileStatus e.value, evidence_file := none }
      else e)
  else entries

/-- The assignment mapping fetched in EventTasks.js lines 88-114:
`{category_assignments, element_assignments}`, each an object keyed by
category name / element id whose values carry a `user_id`. The element keys
are compared with the loose `==` of line 195, so they are numeric here. -/
structure Assignments where
  category_assignments : List (String × Nat)
  element_assignments : List (Nat × Nat)
deriving DecidableEq

/-- The duplicate-suppressing push of EventTasks.js lines 198-203:
push unless an already collected task has the same `id`. -/
def pushIfNewId (acc : List Entry) (t : Entry) : List Entry :=
  if acc.any (fun e => e.id = t.id) then acc else acc ++ [t]

/-- One iteration of the category pass (EventTasks.js lines 183-190): when
the category is assigned to this user, append every task of that category. -/
def catStep (filtered : List Entry) (userId : Nat) (acc : List Entry)
    (ca : String × Nat) : List Entry :=
  if ca.2 = userId then
    acc ++ filtered.filter (fun t => t.element_category = ca.1)
  else acc

/-- The category pass of EventTasks.js lines 183-190. -/
def categoryAssignedTasks (filtered : List Entry) (userId : Nat)
    (cas : List (String × Nat)) : List Entry :=
  cas.foldl (catStep filtered userId) []

/-- One iteration of the element pass (EventTasks.js lines 192-204): when the
element is assigned to this user, push its tasks unless a task with the same
id was already collected. -/
def elemStep (filtered : List Entry) (userId : Nat) (acc : List Entry)
    (ea : Nat × Nat) : List Entry :=
  if ea.2 = userId then
    (filtered.filter (fun t => t.element_id = ea.1)).foldl pushIfNewId acc
  else acc

/-- The element pass of EventTasks.js lines 192-204. -/
def addElementAssignedTasks (filtered : List Entry) (userId : Nat)
    (eas : List (Nat × Nat)) (acc0 : List Entry) : List Entry :=
  eas.foldl (elemStep filtered userId) acc0

/-- The assignment-restriction stage of the `filteredEntries` memo
(EventTasks.js lines 176-216), with the search / view / assignment UI filters
at their default identity values (`searchTerm = ''`, `viewFilter = 'All'`,
`assignmentFilter = 'all'`, under which lines 156-173 and 209-213 change
nothing). `assignments = none` models the unfetched `null` state; a fetched
assignments object always has the two keys, so the JS guard
`Object.keys(assignments).length > 0` of line 180 holds exactly when the
object is present. -/
def filterTasksForRole (entries : List Entry) (role : String) (userId : Nat)
    (assignments : Option Assignments) : List Entry :=
  match assignments with
  | some asg =>
    if role = "meter_manager" ∨ role = "uploader" then
      addElementAssignedTasks entries userId asg.element_assignments
        (categoryAssignedTasks entries userId asg.category_assignments)
    else entries
  | none => entries

/-! ## Progress aggregation (spec-modelled)

The progress numbers shown by EventTasks.js (lines 62-73) are read verbatim
from the backend response of `/api/data-collection/event_tasks/`; the backend
that computes them is not part of the frontend sources. -/

/-- The output record of the progress aggregator. -/
structure ProgressStats where
  total : Nat
  completed : Nat
  progressPercent : Int
deriving DecidableEq

/-- Modelled from the spec: the Progress Aggregator
`computeProgress(tasks) -> {total, completed, progressPercent}` whose backend
implementation is not under the frontend sources. `completed` counts tasks
with status `Complete` ("complete"); `progressPercent = round(100 *
completed / total)`, defined as `0` when `total = 0`. -/
def computeProgress (tasks : List Entry) : ProgressStats :=
  let total := tasks.length
  let completed := (tasks.filter (fun t => t.status = "complete")).length
  { total := total, completed := completed,
    progressPercent :=
      if total = 0 then 0 else round ((100 * completed : ℚ) / total) }

/-! ## Sample data used by witnesses and counterexamples -/

/-- A sample backend checklist item (metered). -/
def sampleBackendItem : BackendChecklistItem :=
  ⟨1, "Electricity Consumption", "Total electricity from local providers",
   "kWh", "Monthly", ["DST"], true⟩

/-- A sample event task entry with an existing submission. -/
def sampleEntryA : Entry :=
  ⟨some 7, 3, "Generator Fuel", "Environmental", "Environmental",
   "on_installation", "partial", "12", none, none⟩

/-- A sample event task entry whose element (id 5) sits in the
Environmental category. -/
def sampleEntryB : Entry :=
  ⟨some 10, 5, "Vehicle Fuel", "Environmental", "Environmental",
   "on_purchase", "missing", "", none, none⟩

/-- Assignments giving the Environmental category to user 1 and element 5 to
user 2. -/
def sampleAssignments : Assignments :=
  ⟨[("Environmental", 1)], [(5, 2)]⟩

/-! ## C1: status recomputation -/

/-- C1, counterexample: the claim states that recomputing status with a value
present, no evidence and evidence not required yields Complete
(`recomputeStatus(true, false, evidenceRequired=false) = Complete`). The
code's status recomputation (EventTasks.js line 358) takes no
evidence-required input at all and yields "partial" for every entry with a
value and no evidence file. -/
theorem recompute_status_claim_counterexample :
    autoSaveLocalStatus "5" none = "partial" ∧ autoSaveLocalStatus "5" none ≠ "complete" := by
  constructor <;> decide

/-- C1 (amended): status recomputation yields Missing when the value is
cleared, and, when a value is present, Complete exactly when an evidence file
is also present and Partial when it is absent — irrespective of any
evidence-required flag, which the code does not consult; after clearing the
evidence file the status is Partial when a value is present and Missing
otherwise. -/
theorem recompute_status_amended :
    (∀ (v : String) (f : Option String), v ≠ "" → f.isSome = true →
      autoSaveLocalStatus v f = "complete") ∧
    (∀ v : String, v ≠ "" → autoSaveLocalStatus v none = "partial") ∧
    (∀ v : String, v ≠ "" → clearFileStatus v = "partial") ∧
    clearFileStatus "" = "missing" ∧
    clearValueStatus = "missing" := by
  refine ⟨?_, ?_, ?_, by decide, rfl⟩
  · intro v f hv hf
    simp [autoSaveLocalStatus, hv, hf]
  · intro v hv
    simp [autoSaveLocalStatus]
  · intro v hv
    simp [clearFileStatus, hv]

/-- Witness for `recompute_status_amended` at a concrete input. -/
theorem recompute_status_amended_witness :
    ("5" : String) ≠ "" ∧ (some "f.pdf" : Option String).isSome = true ∧
      autoSaveLocalStatus "5" (some "f.pdf") = "complete" :=
  ⟨by decide, by decide, recompute_status_amended.1 "5" (some "f.pdf") (by decide) (by decide)⟩

/-! ## C3: invalid activation reference -/

/-- C3: answering a question `true` whose `activatesElement` is not a key of
the conditional-element catalog produces a checklist identical to one with no
activation at all — the reference is silently dropped, and `generateChecklist`
(List.js lines 444-459) has no error channel by which a `ValidationError`
could be surfaced. -/
theorem invalid_activation_silently_dropped :
    conditionalLookup "nonexistent_element" = none ∧
    generateChecklist
        [⟨"q1", "Do you have the nonexistent thing?", "nonexistent_element", "Basic Operations"⟩]
        [("q1", true)] = some (sortByCategory mustHaveElements) := by
  exact ⟨rfl, rfl⟩

/-! ## C7: progress aggregation -/

/-- C7: for every task list, the progress percentage lies in [0, 100] and
completed never exceeds total; on the empty task list the percentage is 0
rather than a division-by-zero error. (`computeProgress` is modelled from the
spec; the backend that computes the numbers consumed by EventTasks.js lines
62-73 is not part of the frontend sources.) -/
theorem computeProgress_percent_bounds :
    (∀ tasks : List Entry,
        0 ≤ (computeProgress tasks).progressPercent ∧
        (computeProgress tasks).progressPercent ≤ 100 ∧
        (computeProgress tasks).completed ≤ (computeProgress tasks).total) ∧
    (computeProgress []).progressPercent = 0 := by
  refine ⟨?_, rfl⟩
  intro tasks
  have hct : (tasks.filter (fun t => t.status = "complete")).length ≤ tasks.length :=
    List.length_filter_le _ _
  refine ⟨?_, ?_, hct⟩
  · simp only [computeProgress]
    split
    · exact le_refl 0
    · rename_i ht
      rw [round_eq]
      refine Int.le_floor.mpr ?_
      have h0 : (0 : ℚ) ≤ (100 * (tasks.filter (fun t => t.status = "complete")).length : ℚ) / tasks.length := by
        positivity
      push_cast
      linarith
  · simp only [computeProgress]
    split
    · norm_num
    · rename_i ht
      have htpos : (0 : ℚ) < (tasks.length : ℚ) := by
        exact_mod_cast Nat.pos_of_ne_zero ht
      have hx : (100 * (tasks.filter (fun t => t.status = "complete")).length : ℚ) / tasks.length ≤ 100 := by
        rw [div_le_iff₀ htpos]
        have : ((tasks.filter (fun t => t.status = "complete")).length : ℚ) ≤ (tasks.length : ℚ) := by
          exact_mod_cast hct
        linarith
      rw [round_eq]
      have hfl :
          ⌊(100 * (tasks.filter (fun t => t.status = "complete")).length : ℚ) / tasks.length
              + 1 / 2⌋ < (101 : ℤ) :=
        Int.floor_lt.mpr (by push_cast; linarith)
      omega

/-! ## C8: failed saves do not advance state -/

/-- C8: whenever the underlying save fails (the server responds non-ok, the
request throws, or no request can be issued), the `dataEntries` state is left
exactly at its pre-edit value — neither status nor value is optimistically
advanced — and `saveDataEntry` reports the failure to its caller by returning
`false`. -/
theorem failed_save_leaves_entries_unchanged :
    (∀ (entries : List Entry) (entryId : Option Nat) (elementId : Nat) (value : String)
        (file : Option String) (refetched : List Entry) (responseOk : Option Bool),
        responseOk ≠ some true →
        handleAutoSaveEntries entries entryId elementId value file
          (saveDataEntry entryId (some elementId) responseOk) refetched = entries) ∧
    (∀ (entries : List Entry) (elementId : Nat),
        handleClearFileEntries entries elementId false = entries) ∧
    (∀ entryId elementId : Option Nat,
        saveDataEntry entryId elementId none = false ∧
        saveDataEntry entryId elementId (some false) = false) := by
  refine ⟨?_, ?_, ?_⟩
  · intro entries entryId elementId value file refetched responseOk h
    have hs : saveDataEntry entryId (some elementId) responseOk = false := by
      cases responseOk with
      | none => cases entryId <;> rfl
      | some b =>
        cases b with
        | false => cases entryId <;> rfl
        | true => exact absurd rfl h
    rw [hs]
    by_cases hc : value = "" ∧ file = none <;> simp [handleAutoSaveEntries, hc]
  · intro entries elementId
    rfl
  · intro a b
    exact ⟨by cases a <;> cases b <;> rfl, by cases a <;> cases b <;> rfl⟩

/-- Witness for `failed_save_leaves_entries_unchanged` at a concrete input. -/
theorem failed_save_leaves_entries_unchanged_witness :
    (some false : Option Bool) ≠ some true ∧
      handleAutoSaveEntries [sampleEntryA] (some 7) 3 "99" none
        (saveDataEntry (some 7) (some 3) (some false)) [] = [sampleEntryA] :=
  ⟨by decide,
   failed_save_leaves_entries_unchanged.1 [sampleEntryA] (some 7) 3 "99" none [] (some false)
     (by decide)⟩

/-! ## C10: transformed checklist categories -/

/-- C10: every record produced by the checklist transformation of List.js
lines 418-427 has category "Environmental" exactly when the backend item is
metered and "Social" otherwise; the category "Governance" never appears in the
transformed checklist. -/
theorem transformed_category_iff_metered (items : List BackendChecklistItem)
    (d : DisplayChecklistItem) (hd : d ∈ transformChecklist items) :
    (d.category = "Environmental" ↔ d.isMetered = true) ∧
    (d.category = "Social" ↔ d.isMetered = false) ∧
    d.category ≠ "Governance" := by
  obtain ⟨i, _, rfl⟩ := List.mem_map.mp hd
  cases h : i.is_metered <;>
    simp only [transformChecklistItem, h, if_true, if_false] <;>
    refine ⟨by decide, by decide, by decide⟩

/-- Witness for `transformed_category_iff_metered` at a concrete input. -/
theorem transformed_category_iff_metered_witness :
    transformChecklistItem sampleBackendItem ∈ transformChecklist [sampleBackendItem] ∧
      (((transformChecklistItem sampleBackendItem).category = "Environmental" ↔
          (transformChecklistItem sampleBackendItem).isMetered = true) ∧
        ((transformChecklistItem sampleBackendItem).category = "Social" ↔
          (transformChecklistItem sampleBackendItem).isMetered = false) ∧
        (transformChecklistItem sampleBackendItem).category ≠ "Governance") :=
  ⟨by decide,
   transformed_category_iff_metered [sampleBackendItem] (transformChecklistItem sampleBackendItem)
     (by decide)⟩

/-! ## C5: checklist generation is deterministic in the answer set -/

/-- Congruence of `List.all` under pointwise equal predicates. -/
theorem list_all_congr {α : Type} (l : List α) (f g : α → Bool)
    (h : ∀ x ∈ l, f x = g x) : l.all f = l.all g := by
  induction l with
  | nil => rfl
  | cons x xs ih =>
    simp only [List.all_cons]
    rw [h x (by simp), ih (fun y hy => h y (by simp [hy]))]

/-- C5: the generated checklist depends on the answers state only through
the key-value mapping it denotes — two answer states that answer every
question id identically produce identical ordered output; in particular
calling `generateChecklist` twice with the same answer set yields the same
ordered checklist. -/
theorem generateChecklist_deterministic (questions : List ProfilingQuestion)
    (a1 a2 : List (String × Bool))
    (h : ∀ k, lookupAnswer a1 k = lookupAnswer a2 k) :
    generateChecklist questions a1 = generateChecklist questions a2 := by
  have hall : allQuestionsAnswered questions a1 = allQuestionsAnswered questions a2 := by
    unfold allQuestionsAnswered
    rw [list_all_congr questions _ _ (fun q _ => by rw [h q.id])]
  have hact : activatedElements questions a1 = activatedElements questions a2 := by
    unfold activatedElements
    exact List.filterMap_congr (fun q _ => by rw [h q.id])
  unfold generateChecklist
  rw [hall, hact]

/-- Witness for `generateChecklist_deterministic`: two syntactically different
answers states denoting the same mapping (the second carries a shadowed
duplicate key) generate the same checklist. -/
theorem generateChecklist_deterministic_witness :
    (∀ k, lookupAnswer [("backup_generators", true)] k =
        lookupAnswer [("backup_generators", true), ("backup_generators", false)] k) ∧
    generateChecklist fallbackQuestions [("backup_generators", true)] =
      generateChecklist fallbackQuestions
        [("backup_generators", true), ("backup_generators", false)] := by
  have h : ∀ k, lookupAnswer [("backup_generators", true)] k =
      lookupAnswer [("backup_generators", true), ("backup_generators", false)] k := by
    intro k
    by_cases hk : ("backup_generators" : String) = k <;> simp [lookupAnswer, hk]
  exact ⟨h, generateChecklist_deterministic fallbackQuestions _ _ h⟩

/-! ## C9: bulk answer-all versus repeated single answers -/

/-- C9, counterexample: from a prior answers state holding a key that is not
among the question ids, the bulk answer-all operation (which rebuilds the
state from an empty object) does not produce the same answers state as
applying the single-answer operation to every question, which retains the
stale key. -/
theorem answer_all_counterexample :
    lookupAnswer
        (handleAnswerAllState [⟨"q1", "Sample?", "generator_fuel", "Basic Operations"⟩] false)
        "stale" = none ∧
    lookupAnswer
        (applyAnswerToAll [⟨"q1", "Sample?", "generator_fuel", "Basic Operations"⟩]
          [("stale", true)] false) "stale" = some true ∧
    handleAnswerAllState [⟨"q1", "Sample?", "generator_fuel", "Basic Operations"⟩] false ≠
      applyAnswerToAll [⟨"q1", "Sample?", "generator_fuel", "Basic Operations"⟩]
        [("stale", true)] false := by
  refine ⟨rfl, rfl, by decide⟩

/-- Key-value behaviour of the single-answer update. -/
theorem lookup_handleAnswerChangeState (m : List (String × Bool)) (q k : String) (b : Bool) :
    lookupAnswer (handleAnswerChangeState m q b) k =
      if q = k then some b else lookupAnswer m k := by
  induction m with
  | nil => rfl
  | cons p rest ih =>
    simp only [handleAnswerChangeState]
    by_cases hp : p.1 = q
    · rw [if_pos hp]
      simp only [lookupAnswer]
      by_cases hk : q = k
      · rw [if_pos (hp.trans hk), if_pos hk]
      · have hpk : ¬ p.1 = k := fun h => hk (hp.symm.trans h)
        rw [if_neg hpk, if_neg hk, if_neg hpk]
    · rw [if_neg hp]
      simp only [lookupAnswer]
      by_cases hpk : p.1 = k
      · have hk : ¬ q = k := fun h => hp (hpk.trans h.symm)
        rw [if_pos hpk, if_neg hk, if_pos hpk]
      · rw [if_neg hpk, ih]
        by_cases hk : q = k
        · rw [if_pos hk, if_pos hk]
        · rw [if_neg hk, if_neg hk, if_neg hpk]

/-- Folding the single-answer update with a fixed value over a question list
answers exactly the listed question ids, leaving other keys untouched. -/
theorem lookup_foldl_answerAll (questions : List ProfilingQuestion) (b : Bool) :
    ∀ (m : List (String × Bool)) (k : String),
      lookupAnswer (questions.foldl (fun m q => handleAnswerChangeState m q.id b) m) k =
        if k ∈ questions.map (fun q => q.id) then some b else lookupAnswer m k := by
  induction questions with
  | nil => intro m k; simp
  | cons q qs ih =>
    intro m k
    simp only [List.foldl_cons]
    rw [ih]
    by_cases hq : q.id = k
    · have hc : k ∈ (q :: qs).map (fun q => q.id) :=
        List.mem_map.mpr ⟨q, List.mem_cons_self q qs, hq⟩
      rw [if_pos hc]
      by_cases hk : k ∈ qs.map (fun q => q.id)
      · rw [if_pos hk]
      · rw [if_neg hk, lookup_handleAnswerChangeState, if_pos hq]
    · by_cases hk : k ∈ qs.map (fun q => q.id)
      · have hc : k ∈ (q :: qs).map (fun q => q.id) := by
          simp only [List.map_cons, List.mem_cons]
          exact Or.inr hk
        rw [if_pos hk, if_pos hc]
      · have hc : ¬ k ∈ (q :: qs).map (fun q => q.id) := by
          simp only [List.map_cons, List.mem_cons]
          rintro (h | h)
          · exact hq h.symm
          · exact hk h
        rw [if_neg hk, if_neg hc, lookup_handleAnswerChangeState, if_neg hq]

/-- A successful lookup comes from an entry of the association list. -/
theorem lookupAnswer_eq_some_mem {m : List (String × Bool)} {k : String} {v : Bool}
    (h : lookupAnswer m k = some v) : (k, v) ∈ m := by
  induction m with
  | nil => exact absurd h (by simp [lookupAnswer])
  | cons p rest ih =>
    by_cases hp : p.1 = k
    · simp only [lookupAnswer, hp, if_pos] at h
      obtain rfl : p.2 = v := by injection h
      exact (by rw [← hp]; exact List.mem_cons_self p rest : (k, p.2) ∈ p :: rest)
    · simp only [lookupAnswer, hp, if_neg, ite_false] at h
      exact List.mem_cons_of_mem p (ih h)

/-- C9 (amended): whenever every key of the prior answers state is the id of
some question in the list (in particular from a fresh state), the bulk
answer-all operation produces the same answers mapping as applying the
single-answer operation with the same value to every question; when the prior
state holds a key outside the question list, the bulk operation additionally
discards it while repeated single answers retain it. -/
theorem answer_all_equiv_amended (questions : List ProfilingQuestion)
    (prior : List (String × Bool)) (b : Bool) (k : String)
    (h : ∀ p ∈ prior, ∃ q ∈ questions, q.id = p.1) :
    lookupAnswer (handleAnswerAllState questions b) k =
      lookupAnswer (applyAnswerToAll questions prior b) k := by
  unfold handleAnswerAllState applyAnswerToAll
  rw [lookup_foldl_answerAll, lookup_foldl_answerAll]
  by_cases hk : k ∈ questions.map (fun q => q.id)
  · simp [hk]
  · simp only [hk, if_false, ite_false]
    cases hl : lookupAnswer prior k with
    | none => rfl
    | some v =>
      obtain ⟨q, hq, hid⟩ := h (k, v) (lookupAnswer_eq_some_mem hl)
      exact absurd (List.mem_map.mpr ⟨q, hq, hid⟩) hk

/-- Witness for `answer_all_equiv_amended` at a concrete input. -/
theorem answer_all_equiv_amended_witness :
    (∀ p ∈ ([("backup_generators", true)] : List (String × Bool)),
        ∃ q ∈ fallbackQuestions, q.id = p.1) ∧
    lookupAnswer (handleAnswerAllState fallbackQuestions false) "backup_generators" =
      lookupAnswer (applyAnswerToAll fallbackQuestions [("backup_generators", true)] false)
        "backup_generators" :=
  ⟨by decide,
   answer_all_equiv_amended fallbackQuestions [("backup_generators", true)] false
     "backup_generators" (by decide)⟩

/-! ## C2: assignment precedence in task filtering -/

/-- The category pass only ever appends. -/
theorem mem_catStep {filtered : List Entry} {userId : Nat} {acc : List Entry}
    {x : Entry} (h : x ∈ acc) (ca : String × Nat) :
    x ∈ catStep filtered userId acc ca := by
  unfold catStep
  split
  · exact List.mem_append_left _ h
  · exact h

/-- Folding the category pass only ever appends. -/
theorem mem_foldl_catStep {filtered : List Entry} {userId : Nat} {x : Entry} :
    ∀ (cas : List (String × Nat)) (acc : List Entry), x ∈ acc →
      x ∈ cas.foldl (catStep filtered userId) acc := by
  intro cas
  induction cas with
  | nil => intro acc h; exact h
  | cons ca cs ih => intro acc h; exact ih _ (mem_catStep h ca)

/-- A task of a category assigned to the user is collected by the category
pass. -/
theorem mem_categoryAssignedTasks {filtered : List Entry} {userId : Nat}
    {t : Entry} (ht : t ∈ filtered) :
    ∀ (cas : List (String × Nat)), (t.element_category, userId) ∈ cas →
      t ∈ categoryAssignedTasks filtered userId cas := by
  have key : ∀ (cas : List (String × Nat)) (acc : List Entry),
      (t.element_category, userId) ∈ cas →
        t ∈ cas.foldl (catStep filtered userId) acc := by
    intro cas
    induction cas with
    | nil => intro acc h; exact absurd h (List.not_mem_nil _)
    | cons ca cs ih =>
      intro acc h
      rcases List.mem_cons.mp h with heq | hmem
      · have hstep : t ∈ catStep filtered userId acc ca := by
          unfold catStep
          rw [← heq]
          simp only [if_pos rfl]
          exact List.mem_append_right _ (List.mem_filter.mpr ⟨ht, by simp⟩)
        exact mem_foldl_catStep cs _ hstep
      · exact ih _ hmem
  intro cas h
  exact key cas [] h

/-- `pushIfNewId` only ever appends. -/
theorem mem_pushIfNewId {acc : List Entry} {x : Entry} (h : x ∈ acc) (t : Entry) :
    x ∈ pushIfNewId acc t := by
  unfold pushIfNewId
  split
  · exact h
  · exact List.mem_append_left _ h

/-- Folding `pushIfNewId` only ever appends. -/
theorem mem_foldl_pushIfNewId {x : Entry} :
    ∀ (ts : List Entry) (acc : List Entry), x ∈ acc → x ∈ ts.foldl pushIfNewId acc := by
  intro ts
  induction ts with
  | nil => intro acc h; exact h
  | cons t ts ih => intro acc h; exact ih _ (mem_pushIfNewId h t)

/-- After folding `pushIfNewId` over a list containing `t`, the accumulator
holds some entry with the id of `t` (either `t` itself or an entry with the
same id collected earlier). -/
theorem exists_id_foldl_pushIfNewId {t : Entry} :
    ∀ (ts : List Entry) (acc : List Entry), t ∈ ts →
      ∃ e ∈ ts.foldl pushIfNewId acc, e.id = t.id := by
  intro ts
  induction ts with
  | nil => intro acc h; exact absurd h (List.not_mem_nil _)
  | cons x xs ih =>
    intro acc h
    rcases List.mem_cons.mp h with rfl | hmem
    · by_cases hex : acc.any (fun e => e.id = t.id)
      · obtain ⟨e, he, hid⟩ := List.any_eq_true.mp hex
        refine ⟨e, mem_foldl_pushIfNewId xs _ (mem_pushIfNewId he t), of_decide_eq_true hid⟩
      · have : t ∈ pushIfNewId acc t := by
          unfold pushIfNewId
          rw [if_neg (by exact fun hc => hex hc)]
          exact List.mem_append_right _ (List.mem_singleton.mpr rfl)
        exact ⟨t, mem_foldl_pushIfNewId xs _ this, rfl⟩
    · exact ih _ hmem

/-- The element pass only ever appends. -/
theorem mem_elemStep {filtered : List Entry} {userId : Nat} {acc : List Entry}
    {x : Entry} (h : x ∈ acc) (ea : Nat × Nat) :
    x ∈ elemStep filtered userId acc ea := by
  unfold elemStep
  split
  · exact mem_foldl_pushIfNewId _ _ h
  · exact h

/-- Folding the element pass only ever appends. -/
theorem mem_foldl_elemStep {filtered : List Entry} {userId : Nat} {x : Entry} :
    ∀ (eas : List (Nat × Nat)) (acc : List Entry), x ∈ acc →
      x ∈ eas.foldl (elemStep filtered userId) acc := by
  intro eas
  induction eas with
  | nil => intro acc h; exact h
  | cons ea es ih => intro acc h; exact ih _ (mem_elemStep h ea)

/-- A task whose element is assigned to the user is represented (by id) in the
output of the element pass. -/
theorem exists_id_addElementAssignedTasks {filtered : List Entry} {userId : Nat}
    {t : Entry} (ht : t ∈ filtered) :
    ∀ (eas : List (Nat × Nat)) (acc0 : List Entry), (t.element_id, userId) ∈ eas →
      ∃ e ∈ addElementAssignedTasks filtered userId eas acc0, e.id = t.id := by
  intro eas
  induction eas with
  | nil => intro acc0 h; exact absurd h (List.not_mem_nil _)
  | cons ea es ih =>
    intro acc0 h
    rcases List.mem_cons.mp h with heq | hmem
    · have hstep : ∃ e ∈ elemStep filtered userId acc0 ea, e.id = t.id := by
        unfold elemStep
        rw [← heq]
        simp only [if_pos rfl]
        exact exists_id_foldl_pushIfNewId _ _ (List.mem_filter.mpr ⟨ht, by simp⟩)
      obtain ⟨e, he, hid⟩ := hstep
      exact ⟨e, mem_foldl_elemStep es _ he, hid⟩
    · exact ih _ hmem

/-- C2, counterexample: with element 5 of the Environmental category assigned
at element level to user 2 while the Environmental category is assigned to
user 1, the filtering operation still includes the element's task in user 1's
visible set (the claim states it is excluded from U1's set). -/
theorem assignment_override_counterexample :
    sampleEntryB ∈ filterTasksForRole [sampleEntryB] "uploader" 1 (some sampleAssignments) ∧
    sampleEntryB ∈ filterTasksForRole [sampleEntryB] "uploader" 2 (some sampleAssignments) := by
  constructor <;> decide

/-- C2 (amended): for an assignment-restricted role, an element-level
assignment to user U2 makes the element's task visible (by id) to U2, and a
category-level assignment of the element's category to user U1 also keeps the
task in U1's visible set — the element-level assignment adds visibility but
does not override or exclude the category-level assignee. -/
theorem assignment_visibility_amended (entries : List Entry) (u1 u2 : Nat)
    (asg : Assignments) (t : Entry) (ht : t ∈ entries)
    (hcat : (t.element_category, u1) ∈ asg.category_assignments)
    (helem : (t.element_id, u2) ∈ asg.element_assignments) :
    t ∈ filterTasksForRole entries "uploader" u1 (some asg) ∧
    ∃ e ∈ filterTasksForRole entries "uploader" u2 (some asg), e.id = t.id := by
  have hrole : ∀ u : Nat, filterTasksForRole entries "uploader" u (some asg) =
      addElementAssignedTasks entries u asg.element_assignments
        (categoryAssignedTasks entries u asg.category_assignments) := by
    intro u
    show (if "uploader" = "meter_manager" ∨ "uploader" = "uploader" then
        addElementAssignedTasks entries u asg.element_assignments
          (categoryAssignedTasks entries u asg.category_assignments)
      else entries) = _
    rw [if_pos (Or.inr rfl)]
  constructor
  · rw [hrole]
    exact mem_foldl_elemStep _ _ (mem_categoryAssignedTasks ht _ hcat)
  · rw [hrole]
    exact exists_id_addElementAssignedTasks ht _ _ helem

/-- Witness for `assignment_visibility_amended` at a concrete input. -/
theorem assignment_visibility_amended_witness :
    sampleEntryB ∈ [sampleEntryB] ∧
    (sampleEntryB.element_category, 1) ∈ sampleAssignments.category_assignments ∧
    (sampleEntryB.element_id, 2) ∈ sampleAssignments.element_assignments ∧
    sampleEntryB ∈ filterTasksForRole [sampleEntryB] "uploader" 1 (some sampleAssignments) ∧
    ∃ e ∈ filterTasksForRole [sampleEntryB] "uploader" 2 (some sampleAssignments),
      e.id = sampleEntryB.id :=
  ⟨by decide, by decide, by decide,
   (assignment_visibility_amended [sampleEntryB] 1 2 sampleAssignments sampleEntryB
     (by decide) (by decide) (by decide)).1,
   (assignment_visibility_amended [sampleEntryB] 1 2 sampleAssignments sampleEntryB
     (by decide) (by decide) (by decide)).2⟩

/-! ## C6: the checklist is stably sorted by category -/

/-- The all-No answer set over the fallback question list. -/
def allNoAnswers : List (String × Bool) :=
  fallbackQuestions.map (fun q => (q.id, false))

/-- Filtering to one category commutes with an ordered insertion: the inserted
element lands in front of its category class exactly when it has that
category, and elements it passes over have strictly smaller categories. -/
theorem filter_orderedInsert (x : DataElement) (c : String) :
    ∀ l : List DataElement,
      (List.orderedInsert catLe x l).filter (fun e => e.category = c) =
        if x.category = c then
          x :: l.filter (fun e => e.category = c)
        else l.filter (fun e => e.category = c) := by
  intro l
  induction l with
  | nil =>
    by_cases hx : x.category = c <;> simp [List.orderedInsert, hx]
  | cons y ys ih =>
    simp only [List.orderedInsert]
    by_cases hle : catLe x y
    · rw [if_pos hle]
      by_cases hx : x.category = c <;> simp [List.filter_cons, hx]
    · rw [if_neg hle]
      have hlt : y.category < x.category := lt_of_not_le hle
      by_cases hx : x.category = c
      · have hyc : ¬ y.category = c := fun h => absurd (hx ▸ h ▸ hlt) (lt_irrefl _)
        simp [List.filter_cons, hyc, ih, hx]
      · by_cases hy : y.category = c <;> simp [List.filter_cons, hy, ih, hx]

/-- Stability of the sort of List.js line 458: restricted to any one category,
the sorted checklist lists its elements in their original relative order. -/
theorem filter_sortByCategory (c : String) :
    ∀ l : List DataElement,
      (sortByCategory l).filter (fun e => e.category = c) =
        l.filter (fun e => e.category = c) := by
  intro l
  induction l with
  | nil => rfl
  | cons x xs ih =>
    have ih2 : (List.insertionSort catLe xs).filter (fun e => decide (e.category = c)) =
        xs.filter (fun e => decide (e.category = c)) := ih
    show (List.orderedInsert catLe x (List.insertionSort catLe xs)).filter _ = _
    rw [filter_orderedInsert]
    by_cases hx : x.category = c <;> simp [List.filter_cons, hx, ih2]

/-- C6: for every complete answer set, the generated checklist is the stable
category sort of (must-have elements, then activated conditional elements):
it is sorted by category in lexicographic string order — under which
Environmental precedes Governance precedes Social — and elements of equal
category keep their relative input order (witnessed by filter-invariance for
the given category). -/
theorem checklist_sorted_stable (questions : List ProfilingQuestion)
    (answers : List (String × Bool)) (c : String)
    (h : allQuestionsAnswered questions answers = true) :
    generateChecklist questions answers =
      some (sortByCategory (mustHaveElements ++ activatedElements questions answers)) ∧
    List.Sorted catLe (sortByCategory (mustHaveElements ++ activatedElements questions answers)) ∧
    (sortByCategory (mustHaveElements ++ activatedElements questions answers)).filter
        (fun e => e.category = c) =
      (mustHaveElements ++ activatedElements questions answers).filter
        (fun e => e.category = c) ∧
    ("Environmental" : String) < "Governance" ∧ ("Governance" : String) < "Social" := by
  refine ⟨by simp [generateChecklist, h], List.sorted_insertionSort catLe _,
    filter_sortByCategory c _, ?_, ?_⟩
  · rw [String.lt_iff_toList_lt]
    decide
  · rw [String.lt_iff_toList_lt]
    decide

/-- Witness for `checklist_sorted_stable` at a concrete input. -/
theorem checklist_sorted_stable_witness :
    allQuestionsAnswered fallbackQuestions allNoAnswers = true ∧
    (generateChecklist fallbackQuestions allNoAnswers =
        some (sortByCategory (mustHaveElements ++ activatedElements fallbackQuestions allNoAnswers)) ∧
      List.Sorted catLe
        (sortByCategory (mustHaveElements ++ activatedElements fallbackQuestions allNoAnswers)) ∧
      (sortByCategory (mustHaveElements ++ activatedElements fallbackQuestions allNoAnswers)).filter
          (fun e => e.category = "Social") =
        (mustHaveElements ++ activatedElements fallbackQuestions allNoAnswers).filter
          (fun e => e.category = "Social") ∧
      ("Environmental" : String) < "Governance" ∧ ("Governance" : String) < "Social") :=
  ⟨by decide, checklist_sorted_stable fallbackQuestions allNoAnswers "Social" (by decide)⟩

/-! ## C4: checklist membership invariant -/

/-- Every entry of the conditional-element catalog stores an element whose id
equals its key. -/
theorem catalog_ids_match : ∀ p ∈ conditionalElements, p.2.id = p.1 := by decide

/-- The must-have element ids are pairwise distinct. -/
theorem mustHave_ids_nodup : (mustHaveElements.map (fun e => e.id)).Nodup := by decide

/-- No conditional-catalog element shares an id with a must-have element. -/
theorem catalog_must_disjoint :
    ∀ p ∈ conditionalElements, ∀ m ∈ mustHaveElements, p.2.id ≠ m.id := by decide

/-- A successful catalog lookup returns an element whose id is the looked-up
key, drawn from the catalog values. -/
theorem conditionalLookup_id {k : String} {e : DataElement}
    (h : conditionalLookup k = some e) :
    e.id = k ∧ e ∈ conditionalElements.map (fun p => p.2) := by
  unfold conditionalLookup at h
  cases hf : conditionalElements.find? (fun p => p.1 = k) with
  | none => rw [hf] at h; cases h
  | some pr =>
    rw [hf] at h
    obtain rfl : pr.2 = e := by injection h
    have hfound := List.find?_some hf
    have hkey : pr.1 = k := of_decide_eq_true hfound
    have hmem : pr ∈ conditionalElements := List.mem_of_find?_eq_some hf
    exact ⟨(catalog_ids_match pr hmem).trans hkey, List.mem_map.mpr ⟨pr, hmem, rfl⟩⟩

/-- Membership in the activated conditional elements, unfolded. -/
theorem mem_activatedElements {questions : List ProfilingQuestion}
    {answers : List (String × Bool)} {e : DataElement} :
    e ∈ activatedElements questions answers ↔
      ∃ q ∈ questions, lookupAnswer answers q.id = some true ∧
        conditionalLookup q.activatesElement = some e := by
  unfold activatedElements
  rw [List.mem_filterMap]
  constructor
  · rintro ⟨q, hq, hf⟩
    by_cases ha : lookupAnswer answers q.id = some true
    · rw [if_pos ha] at hf
      exact ⟨q, hq, ha, hf⟩
    · rw [if_neg ha] at hf
      cases hf
  · rintro ⟨q, hq, ha, hf⟩
    exact ⟨q, hq, by rw [if_pos ha]; exact hf⟩

/-- When the questions activate pairwise distinct element ids, the activated
conditional elements have pairwise distinct ids. -/
theorem nodup_activated_ids (questions : List ProfilingQuestion)
    (answers : List (String × Bool))
    (h : (questions.map (fun q => q.activatesElement)).Nodup) :
    ((activatedElements questions answers).map (fun e => e.id)).Nodup := by
  induction questions with
  | nil => simp [activatedElements]
  | cons q qs ih =>
    rw [List.map_cons, List.nodup_cons] at h
    obtain ⟨hq, hqs⟩ := h
    unfold activatedElements
    rw [List.filterMap_cons]
    by_cases ha : lookupAnswer answers q.id = some true
    · rw [if_pos ha]
      cases hf : conditionalLookup q.activatesElement with
      | none => exact ih hqs
      | some e =>
        simp only [List.map_cons, List.nodup_cons]
        refine ⟨?_, ih hqs⟩
        intro hmem
        obtain ⟨x, hx, hxid⟩ := List.mem_map.mp hmem
        obtain ⟨q2, hq2, _, hf2⟩ := mem_activatedElements.mp hx
        have h1 : x.id = q2.activatesElement := (conditionalLookup_id hf2).1
        have h2 : e.id = q.activatesElement := (conditionalLookup_id hf).1
        exact hq (List.mem_map.mpr ⟨q2, hq2, by rw [← h1, hxid, h2]⟩)
    · rw [if_neg ha]
      exact ih hqs

/-- The id of every activated element belongs to a conditional-catalog entry,
so it differs from every must-have id. -/
theorem activated_id_ne_mustHave {questions : List ProfilingQuestion}
    {answers : List (String × Bool)} {x m : DataElement}
    (hx : x ∈ activatedElements questions answers) (hm : m ∈ mustHaveElements) :
    x.id ≠ m.id := by
  obtain ⟨q, _, _, hf⟩ := mem_activatedElements.mp hx
  obtain ⟨p, hp, hpe⟩ := List.mem_map.mp (conditionalLookup_id hf).2
  rw [← hpe]
  exact catalog_must_disjoint p hp m hm

/-- C4: for a complete answer set over questions activating pairwise distinct
element ids, the generated checklist contains each must-have element's id
exactly once, contains a conditional-catalog element exactly when some
question activating it is answered true, and has no duplicate element ids. -/
theorem checklist_membership_invariant (questions : List ProfilingQuestion)
    (answers : List (String × Bool))
    (hall : allQuestionsAnswered questions answers = true)
    (hnodup : (questions.map (fun q => q.activatesElement)).Nodup)
    (e : DataElement) (he : e ∈ mustHaveElements)
    (k : String) (ec : DataElement) (hk : conditionalLookup k = some ec) :
    ∃ out, generateChecklist questions answers = some out ∧
      (out.map (fun x => x.id)).count e.id = 1 ∧
      (ec ∈ out ↔ ∃ q ∈ questions, q.activatesElement = k ∧
        lookupAnswer answers q.id = some true) ∧
      (out.map (fun x => x.id)).Nodup := by
  refine ⟨sortByCategory (mustHaveElements ++ activatedElements questions answers),
    by simp [generateChecklist, hall], ?_, ?_, ?_⟩
  all_goals
    have hperm : List.Perm
        (sortByCategory (mustHaveElements ++ activatedElements questions answers))
        (mustHaveElements ++ activatedElements questions answers) :=
      List.perm_insertionSort catLe _
  · rw [(hperm.map (fun x => x.id)).count_eq, List.map_append, List.count_append]
    have h1 : (mustHaveElements.map (fun x => x.id)).count e.id = 1 :=
      List.count_eq_one_of_mem mustHave_ids_nodup (List.mem_map.mpr ⟨e, he, rfl⟩)
    have h2 : ((activatedElements questions answers).map (fun x => x.id)).count e.id = 0 := by
      apply List.count_eq_zero_of_not_mem
      intro hmem
      obtain ⟨x, hx, hxid⟩ := List.mem_map.mp hmem
      exact activated_id_ne_mustHave hx he hxid
    rw [h1, h2]
  · rw [hperm.mem_iff, List.mem_append]
    have hecnm : ec ∉ mustHaveElements := by
      intro hm
      obtain ⟨p, hp, hpe⟩ := List.mem_map.mp (conditionalLookup_id hk).2
      exact catalog_must_disjoint p hp ec hm (by rw [hpe])
    constructor
    · rintro (hmust | hact)
      · exact absurd hmust hecnm
      · obtain ⟨q, hq, ha, hf⟩ := mem_activatedElements.mp hact
        have h1 : ec.id = q.activatesElement := (conditionalLookup_id hf).1
        have h2 : ec.id = k := (conditionalLookup_id hk).1
        exact ⟨q, hq, h1.symm.trans h2, ha⟩
    · rintro ⟨q, hq, hak, ha⟩
      right
      exact mem_activatedElements.mpr ⟨q, hq, ha, by rw [hak]; exact hk⟩
  · rw [(hperm.map (fun x => x.id)).nodup_iff, List.map_append, List.nodup_append]
    refine ⟨mustHave_ids_nodup, nodup_activated_ids questions answers hnodup, ?_⟩
    intro a ha1 ha2
    obtain ⟨m, hm, hmid⟩ := List.mem_map.mp ha1
    obtain ⟨x, hx, hxid⟩ := List.mem_map.mp ha2
    exact activated_id_ne_mustHave hx hm (hxid.trans hmid.symm)

/-- Witness for `checklist_membership_invariant` at a concrete input. -/
theorem checklist_membership_invariant_witness :
    allQuestionsAnswered fallbackQuestions allNoAnswers = true ∧
    (fallbackQuestions.map (fun q => q.activatesElement)).Nodup ∧
    electricityElement ∈ mustHaveElements ∧
    conditionalLookup "generator_fuel" = some generatorFuelElement ∧
    (∃ out, generateChecklist fallbackQuestions allNoAnswers = some out ∧
      (out.map (fun x => x.id)).count electricityElement.id = 1 ∧
      (generatorFuelElement ∈ out ↔ ∃ q ∈ fallbackQuestions,
        q.activatesElement = "generator_fuel" ∧
          lookupAnswer allNoAnswers q.id = some true) ∧
      (out.map (fun x => x.id)).Nodup) :=
  ⟨by decide, by decide, by decide, by decide,
   checklist_membership_invariant fallbackQuestions allNoAnswers (by decide) (by decide)
     electricityElement (by decide) "generator_fuel" generatorFuelElement (by decide)⟩

end ESG
